import Mathlib

/-!
Shallow embedding of the SkyTower property-management server
(Express + MongoDB, `src/unnamed/part_000` and `src/index.js`).

The document store is modelled as in-memory lists of documents; each HTTP
handler becomes a pure function from the store (plus the request data and
any server-supplied values such as the current time and the freshly
generated ObjectId) to a response together with the new store.  A JS
exception that no try/catch in the handler intercepts is modelled as
`Except.error`; handlers whose code cannot throw return plain pairs.
-/

namespace SkyTower

/-- JS truthiness of an optional string field (`undefined` and `""` are falsy). -/
def truthyStr : Option String → Bool
  | none => false
  | some s => s ≠ ""

/-- JS truthiness of an optional numeric field (`undefined` and `0` are falsy). -/
def truthyNum : Option Int → Bool
  | none => false
  | some n => n ≠ 0

/-- A stored JSON scalar, as relevant to the coupon discount field. -/
inductive JsValue where
  | str : String → JsValue
  | num : Int → JsValue
deriving DecidableEq

/-- The JS `Number(x)` coercion on a stored scalar; `none` models `NaN`. -/
def jsToNumber : JsValue → Option Int
  | .num n => some n
  | .str s => s.toInt?

/-- One hexadecimal character. -/
def isHexChar (c : Char) : Bool :=
  c.isDigit || (("a".get 0 ≤ c && c ≤ "f".get 0)) || (("A".get 0 ≤ c && c ≤ "F".get 0))

/-- `new ObjectId(s)` succeeds exactly on 24-character hex strings;
anything else makes the BSON ObjectId constructor throw. -/
def validObjectId (s : String) : Bool :=
  s.length == 24 && s.toList.all isHexChar

/-- A document of the `users` collection: email plus an optional `role` field. -/
structure User where
  email : String
  role : Option String
deriving DecidableEq

/-- The JSON body of a POST /agreements request (all fields optional, as in JS);
a stored agreement document carries the same fields. -/
structure AgreementBody where
  userEmail : Option String
  apartmentNo : Option String
  floor : Option String
  block : Option String
  rent : Option Int
  status : Option String
  createdAt : Option Int
deriving DecidableEq

/-- A document of the `agreements` collection: the server-assigned `_id`
plus the stored JSON fields. -/
structure AgreementDoc where
  oid : String
  doc : AgreementBody
deriving DecidableEq

/-- A document of the `coupons` collection. -/
structure Coupon where
  code : String
  discount : JsValue
  expiryDate : Int
deriving DecidableEq

/-- A document of the `apartments` collection (only the fields the
listing handler reads). -/
structure Apartment where
  apartmentNo : String
  rent : Int
deriving DecidableEq

/-- The document store: the four collections the verified claims touch. -/
structure DB where
  users : List User
  agreements : List AgreementDoc
  coupons : List Coupon
  apartments : List Apartment
deriving DecidableEq

/-- Mongo `findOne(filter)`: the first document matching the filter. -/
def findOne (p : α → Bool) (l : List α) : Option α :=
  l.find? p

/-- The part of a Mongo `UpdateResult` the handlers forward to the client. -/
structure UpdateResult where
  matchedCount : Nat
  modifiedCount : Nat
deriving DecidableEq

/-- Replace the first element satisfying `p` by its image under `f`;
the rest of the list is untouched. -/
def updateFirst (p : α → Bool) (f : α → α) : List α → List α
  | [] => []
  | x :: xs => if p x then f x :: xs else x :: updateFirst p f xs

/-- Mongo `updateOne(filter, update)`: update the first matching document.
Zero matches is not an error: it reports `matchedCount = 0` and leaves the
collection unchanged.  `modifiedCount` is 0 when the update is a no-op on
the matched document. -/
def updateOne [DecidableEq α] (p : α → Bool) (f : α → α) (l : List α) :
    UpdateResult × List α :=
  match l.find? p with
  | none => (⟨0, 0⟩, l)
  | some x => (⟨1, if f x = x then 0 else 1⟩, updateFirst p f l)

/-- The identity the external verifier attaches to the request
(`req.decoded`); Firebase tokens need not carry an email. -/
structure Identity where
  email : Option String
deriving DecidableEq

/-- Outcome of the middleware chain in front of a handler. -/
inductive GateResult where
  | unauthorized : String → GateResult
  | forbidden : String → GateResult
  | proceed : Identity → GateResult
deriving DecidableEq

/-- Character-list version of `startsWith`. -/
def charsStartWith : List Char → List Char → Bool
  | _, [] => true
  | [], _ :: _ => false
  | c :: cs, d :: ds => c = d && charsStartWith cs ds

/-- JS `s.startsWith(pre)`, modelled on the character lists. -/
def strStartsWith (s pre : String) : Bool :=
  charsStartWith s.toList pre.toList

/-- JS `s.split(" ")`, modelled on the character list: cut at every space. -/
def splitOnSpaceAux : List Char → List Char → List String
  | [], acc => [String.mk acc.reverse]
  | c :: cs, acc =>
    if c = " ".get 0 then String.mk acc.reverse :: splitOnSpaceAux cs []
    else splitOnSpaceAux cs (c :: acc)

/-- `authorization.split(" ")[1]`: the token part of the header. -/
def extractToken (s : String) : String :=
  (splitOnSpaceAux s.toList []).getD 1 ""

/-- Whether the credential header is present and of the `Bearer <token>` form
the middleware demands. -/
def bearerForm : Option String → Bool
  | none => false
  | some s => strStartsWith s "Bearer "

/-- The `verifyFBToken` middleware: a header not of the form
`Bearer <token>` is rejected 401 before the identity provider is consulted
(the `verify` oracle stands for `admin.auth().verifyIdToken`); a token the
provider rejects yields 403; otherwise the decoded identity is attached. -/
def verifyFBToken (verify : String → Option Identity) (authHeader : Option String) :
    GateResult :=
  match authHeader with
  | none => .unauthorized "Unauthorized access"
  | some s =>
    if strStartsWith s "Bearer " then
      match verify (extractToken s) with
      | some ident => .proceed ident
      | none => .forbidden "Forbidden"
    else .unauthorized "Unauthorized access"

/-- The `verifyAdmin` middleware: a decoded identity without an email is
401; an email with no user record, or whose stored role is not `admin`,
is 403; a stored admin proceeds. -/
def verifyAdmin (db : DB) (decoded : Identity) : GateResult :=
  match decoded.email with
  | none => .unauthorized "Unauthorized"
  | some e =>
    if e = "" then .unauthorized "Unauthorized"
    else
      match findOne (fun u => u.email = e) db.users with
      | none => .forbidden "Forbidden: Admins only"
      | some u =>
        if u.role = some "admin" then .proceed decoded
        else .forbidden "Forbidden: Admins only"

/-- The middleware chain `verifyFBToken, verifyAdmin` of the admin-only routes. -/
def adminGate (verify : String → Option Identity) (db : DB)
    (authHeader : Option String) : GateResult :=
  match verifyFBToken verify authHeader with
  | .proceed ident => verifyAdmin db ident
  | r => r

/-- Response of the POST /agreements handler. -/
inductive SubmitResp where
  | missingFields : SubmitResp
  | conflict : SubmitResp
  | inserted : String → SubmitResp
deriving DecidableEq

/-- The presence check of POST /agreements: all five fields truthy. -/
def validBody (b : AgreementBody) : Bool :=
  truthyStr b.userEmail && truthyStr b.apartmentNo && truthyStr b.floor &&
    truthyStr b.block && truthyNum b.rent

/-- Filter of `agreementsCollection.findOne({ userEmail })`. -/
def agreementEmailIs (e : Option String) (a : AgreementDoc) : Bool :=
  a.doc.userEmail = e

/-- The POST /agreements handler.  `freshId` is the ObjectId Mongo assigns
at insert and `now` is the server clock read by `new Date()`.  Any field of
the body missing or falsy is 400; an existing agreement for the same
`userEmail` is 400; otherwise the body is inserted as-is except that
`createdAt` is overwritten with the server time. -/
def postAgreements (db : DB) (freshId : String) (now : Int) (body : AgreementBody) :
    SubmitResp × DB :=
  if validBody body then
    match findOne (agreementEmailIs body.userEmail) db.agreements with
    | some _ => (.conflict, db)
    | none =>
      (.inserted freshId,
        { db with agreements :=
            db.agreements ++ [⟨freshId, { body with createdAt := some now }⟩] })
  else (.missingFields, db)

/-- `$set: { status: "checked" }` on an agreement document. -/
def setChecked (a : AgreementDoc) : AgreementDoc :=
  { a with doc := { a.doc with status := some "checked" } }

/-- `$set: { role: "member" }` on a user document. -/
def setMember (u : User) : User :=
  { u with role := some "member" }

/-- Filter of `agreementsCollection.updateOne({ _id: new ObjectId(id) })`. -/
def oidIs (idp : String) (a : AgreementDoc) : Bool :=
  a.oid = idp

/-- Filter of `usersCollection.updateOne({ email })` where `email` comes
from the request body and may be absent. -/
def userEmailIs (e : Option String) (u : User) : Bool :=
  some u.email = e

/-- Response of the PATCH /agreements/:id/accept handler. -/
structure AcceptResp where
  agreementResult : UpdateResult
  userResult : UpdateResult
deriving DecidableEq

/-- The PATCH /agreements/:id/accept handler.  There is no try/catch: a
malformed id makes `new ObjectId(id)` throw, modelled as `Except.error`.
Otherwise the matching agreement gets status `checked`, the user named by
the body email gets role `member`, and both update results are returned. -/
def acceptAgreement (db : DB) (idParam : String) (bodyEmail : Option String) :
    Except String (AcceptResp × DB) :=
  if validObjectId idParam then
    let ag := updateOne (oidIs idParam) setChecked db.agreements
    let us := updateOne (userEmailIs bodyEmail) setMember db.users
    .ok (⟨ag.1, us.1⟩, { db with agreements := ag.2, users := us.2 })
  else .error "BSONError: input must be a 24 character hex string"

/-- The PATCH /agreements/:id/reject handler.  No try/catch, same ObjectId
throw; on a well-formed id the matching agreement gets status `checked`
and nothing else is written. -/
def rejectAgreement (db : DB) (idParam : String) :
    Except String (UpdateResult × DB) :=
  if validObjectId idParam then
    let ag := updateOne (oidIs idParam) setChecked db.agreements
    .ok (ag.1, { db with agreements := ag.2 })
  else .error "BSONError: input must be a 24 character hex string"

/-- The PATCH /users handler (direct admin role edit): set the `role`
field of the user matching the query email to the body value. -/
def patchUserRole (db : DB) (emailQ : Option String) (newRole : Option String) :
    UpdateResult × DB :=
  let us := updateOne (userEmailIs emailQ) (fun u => { u with role := newRole }) db.users
  (us.1, { db with users := us.2 })

/-- The GET /agreements handler: an absent (or empty, hence falsy) email
query returns the whole collection; the decoded identity is never read. -/
def getAgreements (db : DB) (_decoded : Identity) (emailQ : Option String) :
    List AgreementDoc :=
  match emailQ with
  | none => db.agreements
  | some e =>
    if e = "" then db.agreements
    else db.agreements.filter (agreementEmailIs (some e))

/-- Outcome of a route: rejected by the middleware chain, or handled. -/
inductive RouteOut (α : Type) where
  | denied : GateResult → RouteOut α
  | handled : α → RouteOut α
deriving DecidableEq

/-- The full GET /agreements route: `verifyFBToken` then the handler. -/
def agreementsRoute (verify : String → Option Identity) (db : DB)
    (authHeader : Option String) (emailQ : Option String) :
    RouteOut (List AgreementDoc) :=
  match verifyFBToken verify authHeader with
  | .proceed ident => .handled (getAgreements db ident emailQ)
  | r => .denied r

/-- The full PATCH /agreements/:id/accept route: `verifyFBToken`,
`verifyAdmin`, then the handler (whose ObjectId throw nothing catches). -/
def acceptRoute (verify : String → Option Identity) (db : DB)
    (authHeader : Option String) (idParam : String) (bodyEmail : Option String) :
    Except String (RouteOut (AcceptResp × DB)) :=
  match adminGate verify db authHeader with
  | .proceed _ => (acceptAgreement db idParam bodyEmail).map .handled
  | r => .ok (.denied r)

/-- The full PATCH /agreements/:id/reject route. -/
def rejectRoute (verify : String → Option Identity) (db : DB)
    (authHeader : Option String) (idParam : String) :
    Except String (RouteOut (UpdateResult × DB)) :=
  match adminGate verify db authHeader with
  | .proceed _ => (rejectAgreement db idParam).map .handled
  | r => .ok (.denied r)

/-- Response of the GET /validate-coupon handler. -/
inductive CouponResp where
  | missingCode : CouponResp
  | notFound : CouponResp
  | expired : CouponResp
  | valid : Option Int → CouponResp
deriving DecidableEq

/-- The GET /validate-coupon handler.  A falsy `code` query is 400; an
unknown code is valid=false "not found"; a stored expiry strictly before
the wall clock is valid=false "expired"; otherwise valid=true with
`Number(coupon.discount)`.  The store is returned untouched. -/
def validateCoupon (db : DB) (now : Int) (codeQ : Option String) :
    CouponResp × DB :=
  match codeQ with
  | none => (.missingCode, db)
  | some c =>
    if c = "" then (.missingCode, db)
    else
      match findOne (fun k => k.code = c) db.coupons with
      | none => (.notFound, db)
      | some coupon =>
        if coupon.expiryDate < now then (.expired, db)
        else (.valid (jsToNumber coupon.discount), db)

/-- Response of the GET /apartments handler. -/
structure ApartmentsResp where
  totalPages : Nat
  currentPage : Nat
  apartments : List Apartment
deriving DecidableEq

/-- The fixed page size (`const limit = 6`). -/
def pageSize : Nat := 6

/-- `parseInt(q) || d`: an absent or unparsable query value, and also a
parsed 0 (falsy), fall back to the default. -/
def jsOr (v : Option Nat) (d : Nat) : Nat :=
  match v with
  | none => d
  | some n => if n = 0 then d else n

/-- `parseInt(maxRent) || Infinity`: `none` is the absent upper bound. -/
def effectiveMax (v : Option Nat) : Option Nat :=
  match v with
  | none => none
  | some n => if n = 0 then none else some n

/-- The rent filter `{ rent: { $gte: minRent, $lte: maxRent } }`. -/
def rentMatches (minR : Nat) (maxR : Option Nat) (a : Apartment) : Bool :=
  (minR : Int) ≤ a.rent &&
    (match maxR with
     | none => true
     | some m => a.rent ≤ (m : Int))

/-- The GET /apartments handler: count the filtered set, page through it
with skip/limit, and report `Math.ceil(total / limit)` pages. -/
def getApartments (db : DB) (pageQ minQ maxQ : Option Nat) : ApartmentsResp :=
  let page := jsOr pageQ 1
  let skip := (page - 1) * pageSize
  let minR := jsOr minQ 0
  let maxR := effectiveMax maxQ
  let filtered := db.apartments.filter (rentMatches minR maxR)
  { totalPages := (filtered.length + pageSize - 1) / pageSize
    currentPage := page
    apartments := (filtered.drop skip).take pageSize }

/-! ## Generic facts about the Mongo update primitives -/

theorem updateFirst_eq_of_find?_none (p : α → Bool) (f : α → α) (l : List α)
    (h : l.find? p = none) : updateFirst p f l = l := by
  induction l with
  | nil => rfl
  | cons a as ih =>
    cases hp : p a with
    | true =>
      rw [List.find?_cons_of_pos as hp] at h
      exact absurd h (by simp)
    | false =>
      rw [List.find?_cons_of_neg as (by simp [hp])] at h
      simp [updateFirst, hp, ih h]

theorem mem_updateFirst (p : α → Bool) (f : α → α) (l : List α) (x : α)
    (hx : x ∈ updateFirst p f l) :
    x ∈ l ∨ ∃ y, y ∈ l ∧ p y = true ∧ x = f y := by
  induction l with
  | nil => simp [updateFirst] at hx
  | cons a as ih =>
    by_cases hp : p a = true
    · rw [updateFirst, if_pos hp] at hx
      rcases List.mem_cons.mp hx with h | h
      · exact Or.inr ⟨a, List.mem_cons_self a as, hp, h⟩
      · exact Or.inl (List.mem_cons_of_mem a h)
    · rw [updateFirst, if_neg hp] at hx
      rcases List.mem_cons.mp hx with h | h
      · exact Or.inl (h ▸ List.mem_cons_self a as)
      · rcases ih h with h2 | ⟨y, hy, hpy, hxy⟩
        · exact Or.inl (List.mem_cons_of_mem a h2)
        · exact Or.inr ⟨y, List.mem_cons_of_mem a hy, hpy, hxy⟩

theorem updateOne_snd_eq_updateFirst [DecidableEq α] (p : α → Bool) (f : α → α)
    (l : List α) : (updateOne p f l).2 = updateFirst p f l := by
  rw [updateOne]
  cases h : l.find? p with
  | none => exact (updateFirst_eq_of_find?_none p f l h).symm
  | some x => rfl

theorem updateOne_matchedCount_zero [DecidableEq α] (p : α → Bool) (f : α → α)
    (l : List α) (h : ∀ x ∈ l, p x = false) :
    (updateOne p f l).1.matchedCount = 0 ∧ (updateOne p f l).2 = l := by
  have hf : l.find? p = none := List.find?_eq_none.mpr (by
    intro x hx
    simp [h x hx])
  rw [updateOne, hf]
  exact ⟨rfl, rfl⟩

/-! ## Concrete fixtures used by counterexamples and witnesses -/

/-- The empty store. -/
def db0 : DB := ⟨[], [], [], []⟩

/-- A well-formed ObjectId string. -/
def oid24 : String := "aaaaaaaaaaaaaaaaaaaaaaaa"

/-- A submit body whose five required fields are present, with a
client-chosen `status` and a client-chosen `createdAt`. -/
def bodyChecked : AgreementBody :=
  ⟨some "alice@sky.example", some "A1", some "2", some "B", some 100,
    some "checked", some 999⟩

/-- A valid submit body with no `status` field at all. -/
def bodyPlain : AgreementBody :=
  ⟨some "bob@sky.example", some "C7", some "4", some "D", some 250, none, none⟩

/-! ## C1 — POST /agreements: what is actually inserted -/

/-- C1 (counterexample): a submit body carrying all five required fields and
a client-supplied `status: "checked"`, against a store with no agreement for
that email, is inserted with status `"checked"`, not `"pending"`, and the
client-supplied `createdAt` 999 is replaced by the server time 1000.  This
refutes the claim that the inserted Agreement's status field equals
"pending". -/
theorem C1_submit_status_counterexample :
    (postAgreements db0 oid24 1000 bodyChecked).1 = .inserted oid24 ∧
    ((postAgreements db0 oid24 1000 bodyChecked).2.agreements.map
        (fun a => a.doc.status)) = [some "checked"] ∧
    ((postAgreements db0 oid24 1000 bodyChecked).2.agreements.map
        (fun a => a.doc.createdAt)) = [some 1000] := by
  refine ⟨rfl, rfl, rfl⟩

/-- C1 (amended): a submit whose body carries all five required fields,
when no agreement for that `userEmail` exists, inserts exactly one new
Agreement at the end of the collection; the stored document keeps the
client-supplied fields (including whatever `status` the client sent — the
server does not force "pending") except that `createdAt` is overwritten
with the server clock; no User's role (indeed no user document at all) is
changed. -/
theorem C1_submit_inserts_one (db : DB) (fid : String) (now : Int)
    (body : AgreementBody) (hv : validBody body = true)
    (hnone : findOne (agreementEmailIs body.userEmail) db.agreements = none) :
    (postAgreements db fid now body).1 = .inserted fid ∧
    (postAgreements db fid now body).2.agreements =
      db.agreements ++ [⟨fid, { body with createdAt := some now }⟩] ∧
    (postAgreements db fid now body).2.users = db.users := by
  refine ⟨?_, ?_, ?_⟩ <;> simp [postAgreements, hv, hnone]

/-- C1 witness: the amended theorem applied at a concrete body with no
`status` field over the empty store. -/
theorem C1_submit_inserts_one_witness :
    (postAgreements db0 oid24 77 bodyPlain).1 = .inserted oid24 ∧
    (postAgreements db0 oid24 77 bodyPlain).2.agreements =
      [⟨oid24, { bodyPlain with createdAt := some 77 }⟩] ∧
    (postAgreements db0 oid24 77 bodyPlain).2.users = [] :=
  C1_submit_inserts_one db0 oid24 77 bodyPlain (by decide) (by decide)

/-! ## C3 — duplicate submit is a conflict that changes nothing -/

/-- C3: a submit for a `userEmail` that already has a stored Agreement
fails with the 400 conflict response and leaves the whole store (in
particular the agreements collection) unchanged; consequently two
sequential submits with the same owning email yield exactly one stored
Agreement and a conflict on the second call. -/
theorem C3_duplicate_submit_conflict
    (db : DB) (fid now : _) (b : AgreementBody) (hv : validBody b = true)
    (hex : (findOne (agreementEmailIs b.userEmail) db.agreements).isSome)
    (db2 : DB) (f1 f2 : String) (t1 t2 : Int) (b1 b2 : AgreementBody)
    (hv1 : validBody b1 = true) (hv2 : validBody b2 = true)
    (hsame : b2.userEmail = b1.userEmail)
    (hnone : findOne (agreementEmailIs b1.userEmail) db2.agreements = none) :
    postAgreements db fid now b = (.conflict, db) ∧
    (postAgreements db2 f1 t1 b1).2.agreements =
      db2.agreements ++ [⟨f1, { b1 with createdAt := some t1 }⟩] ∧
    postAgreements (postAgreements db2 f1 t1 b1).2 f2 t2 b2 =
      (.conflict, (postAgreements db2 f1 t1 b1).2) := by
  refine ⟨?_, ?_, ?_⟩
  · rw [postAgreements, if_pos hv]
    cases h : findOne (agreementEmailIs b.userEmail) db.agreements with
    | none => rw [h] at hex; simp [Option.isSome] at hex
    | some a => rfl
  · simp [postAgreements, hv1, hnone]
  · have h1 : (postAgreements db2 f1 t1 b1).2.agreements =
        db2.agreements ++ [⟨f1, { b1 with createdAt := some t1 }⟩] := by
      simp [postAgreements, hv1, hnone]
    rw [postAgreements, if_pos hv2]
    have hfind : (findOne (agreementEmailIs b2.userEmail)
        (postAgreements db2 f1 t1 b1).2.agreements).isSome := by
      rw [h1, hsame, findOne, List.find?_append]
      have hb1 : agreementEmailIs b1.userEmail
          (⟨f1, { b1 with createdAt := some t1 }⟩ : AgreementDoc) = true := by
        simp [agreementEmailIs]
      rw [findOne] at hnone
      rw [hnone]
      simp [List.find?, hb1]
    cases h : findOne (agreementEmailIs b2.userEmail)
        (postAgreements db2 f1 t1 b1).2.agreements with
    | none => rw [h] at hfind; simp [Option.isSome] at hfind
    | some a => rfl

/-- C3 witness: concrete first and second submits for the same email over
the empty store, and the general conflict clause applied to the state the
first submit produced. -/
theorem C3_duplicate_submit_conflict_witness :
    postAgreements (postAgreements db0 oid24 1 bodyPlain).2
        "bbbbbbbbbbbbbbbbbbbbbbbb" 2 bodyPlain =
      (.conflict, (postAgreements db0 oid24 1 bodyPlain).2) ∧
    (postAgreements db0 oid24 1 bodyPlain).2.agreements =
      [⟨oid24, { bodyPlain with createdAt := some 1 }⟩] := by
  have h := C3_duplicate_submit_conflict
    (postAgreements db0 oid24 1 bodyPlain).2 "bbbbbbbbbbbbbbbbbbbbbbbb" 2
    bodyPlain (by decide) (by decide)
    db0 oid24 "bbbbbbbbbbbbbbbbbbbbbbbb" 1 2 bodyPlain bodyPlain
    (by decide) (by decide) rfl (by decide)
  exact ⟨h.1, by decide⟩

/-! ## C2 — PATCH /agreements/:id/accept applies both updates -/

/-- C2: on a well-formed agreement id with an email in the body, accept
sets the status of the agreement matching the id to "checked", sets the
role of the user matching the supplied email to "member", reports both
update results in the response, and treats a zero-match agreement id as a
zero-affected no-op success (it still performs the user update and
responds 200, not an error). -/
theorem C2_accept_applies_both_updates (db : DB) (idp e : String)
    (hid : validObjectId idp = true) :
    ∃ r db2,
      acceptAgreement db idp (some e) = .ok (r, db2) ∧
      db2.agreements = updateFirst (oidIs idp) setChecked db.agreements ∧
      db2.users = updateFirst (userEmailIs (some e)) setMember db.users ∧
      r.agreementResult = (updateOne (oidIs idp) setChecked db.agreements).1 ∧
      r.userResult = (updateOne (userEmailIs (some e)) setMember db.users).1 ∧
      ((∀ a ∈ db.agreements, a.oid ≠ idp) →
        r.agreementResult.matchedCount = 0 ∧ db2.agreements = db.agreements) := by
  simp only [acceptAgreement, hid, if_true]
  refine ⟨_, _, rfl, updateOne_snd_eq_updateFirst _ _ _,
    updateOne_snd_eq_updateFirst _ _ _, rfl, rfl, ?_⟩
  intro h
  have hz := updateOne_matchedCount_zero (oidIs idp) setChecked db.agreements
    (fun a ha => by simp [oidIs, h a ha])
  exact ⟨hz.1, hz.2⟩

/-- A store with one admin, one pending agreement and one guest. -/
def dbPending : DB :=
  ⟨[⟨"root@sky.example", some "admin"⟩, ⟨"bob@sky.example", some "guest"⟩],
   [⟨oid24, ⟨some "bob@sky.example", some "C7", some "4", some "D", some 250,
      some "pending", some 3⟩⟩], [], []⟩

/-- C2 witness: the theorem applied over `dbPending` at the pending
agreement's id and its owner's email. -/
theorem C2_accept_applies_both_updates_witness :
    ∃ r db2,
      acceptAgreement dbPending oid24 (some "bob@sky.example") = .ok (r, db2) ∧
      db2.agreements = updateFirst (oidIs oid24) setChecked dbPending.agreements ∧
      db2.users = updateFirst (userEmailIs (some "bob@sky.example")) setMember
        dbPending.users ∧
      r.agreementResult =
        (updateOne (oidIs oid24) setChecked dbPending.agreements).1 ∧
      r.userResult = (updateOne (userEmailIs (some "bob@sky.example")) setMember
        dbPending.users).1 ∧
      ((∀ a ∈ dbPending.agreements, a.oid ≠ oid24) →
        r.agreementResult.matchedCount = 0 ∧ db2.agreements = dbPending.agreements) :=
  C2_accept_applies_both_updates dbPending oid24 "bob@sky.example" (by decide)

/-! ## C7 — PATCH /agreements/:id/reject writes only the agreement -/

/-- C7: on a well-formed agreement id, reject succeeds, the users,
coupons and apartments collections are left completely unchanged, and the
agreements collection changes only in that the first document matching
the id has its status set to "checked" (every document of the new
collection is either an old document or the checked version of an old
document whose `_id` matched). -/
theorem C7_reject_no_role_mutation (db : DB) (idp : String)
    (hid : validObjectId idp = true) :
    ∃ r db2,
      rejectAgreement db idp = .ok (r, db2) ∧
      db2.users = db.users ∧
      db2.coupons = db.coupons ∧
      db2.apartments = db.apartments ∧
      db2.agreements = updateFirst (oidIs idp) setChecked db.agreements ∧
      (∀ a2 ∈ db2.agreements, a2 ∈ db.agreements ∨
        (a2.doc.status = some "checked" ∧
          ∃ a, a ∈ db.agreements ∧ a.oid = idp ∧ a2 = setChecked a)) ∧
      r = (updateOne (oidIs idp) setChecked db.agreements).1 := by
  simp only [rejectAgreement, hid, if_true]
  refine ⟨_, _, rfl, rfl, rfl, rfl, updateOne_snd_eq_updateFirst _ _ _, ?_, rfl⟩
  intro a2 ha2
  rw [updateOne_snd_eq_updateFirst] at ha2
  rcases mem_updateFirst _ _ _ _ ha2 with h | ⟨y, hy, hpy, hxy⟩
  · exact Or.inl h
  · refine Or.inr ⟨by rw [hxy]; rfl, y, hy, ?_, hxy⟩
    simpa [oidIs] using hpy

/-- C7 witness: the theorem applied over `dbPending` at the stored
agreement's id. -/
theorem C7_reject_no_role_mutation_witness :
    ∃ r db2,
      rejectAgreement dbPending oid24 = .ok (r, db2) ∧
      db2.users = dbPending.users ∧
      db2.coupons = dbPending.coupons ∧
      db2.apartments = dbPending.apartments ∧
      db2.agreements = updateFirst (oidIs oid24) setChecked dbPending.agreements ∧
      (∀ a2 ∈ db2.agreements, a2 ∈ dbPending.agreements ∨
        (a2.doc.status = some "checked" ∧
          ∃ a, a ∈ dbPending.agreements ∧ a.oid = oid24 ∧ a2 = setChecked a)) ∧
      r = (updateOne (oidIs oid24) setChecked dbPending.agreements).1 :=
  C7_reject_no_role_mutation dbPending oid24 (by decide)

/-! ## C6 — the lifecycle manager and role direction -/

/-- A store whose only user is an admin. -/
def dbAdmin : DB := ⟨[⟨"root@sky.example", some "admin"⟩], [], [], []⟩

/-- C6 (counterexample): accept with the body email of an admin sets that
admin's role to "member" — the lifecycle manager does downgrade an
"admin" role, refuting the claim that it never changes an admin role. -/
theorem C6_admin_downgrade_counterexample :
    acceptAgreement dbAdmin oid24 (some "root@sky.example") =
      .ok (⟨⟨0, 0⟩, ⟨1, 1⟩⟩, ⟨[⟨"root@sky.example", some "member"⟩], [], [], []⟩) := by
  rfl

/-- C6 (amended): submit never changes any user document; reject never
changes any user document; accept writes only the value "member", to
users whose email equals the caller-supplied body email — so the only
role value the lifecycle manager ever writes is "member", but it writes
it regardless of the prior role (it can downgrade an admin). -/
theorem C6_lifecycle_role_writes (db : DB) (fid : String) (now : Int)
    (b : AgreementBody) (idp e : String) (hid : validObjectId idp = true) :
    (postAgreements db fid now b).2.users = db.users ∧
    (∃ r db2, rejectAgreement db idp = .ok (r, db2) ∧ db2.users = db.users) ∧
    (∃ r db2, acceptAgreement db idp (some e) = .ok (r, db2) ∧
      ∀ u2 ∈ db2.users, u2 ∈ db.users ∨
        (u2.role = some "member" ∧
          ∃ u, u ∈ db.users ∧ u.email = e ∧ u2 = setMember u)) := by
  refine ⟨?_, ?_, ?_⟩
  · by_cases hb : validBody b = true
    · cases h : findOne (agreementEmailIs b.userEmail) db.agreements with
      | none => simp [postAgreements, hb, h]
      | some a => simp [postAgreements, hb, h]
    · simp [postAgreements, hb]
  · simp only [rejectAgreement, hid, if_true]
    exact ⟨_, _, rfl, rfl⟩
  · simp only [acceptAgreement, hid, if_true]
    refine ⟨_, _, rfl, ?_⟩
    intro u2 hu2
    rw [updateOne_snd_eq_updateFirst] at hu2
    rcases mem_updateFirst _ _ _ _ hu2 with h | ⟨y, hy, hpy, hxy⟩
    · exact Or.inl h
    · refine Or.inr ⟨by rw [hxy]; rfl, y, hy, ?_, hxy⟩
      simpa [userEmailIs] using hpy

/-- C6 witness: the amended theorem applied over the one-admin store. -/
theorem C6_lifecycle_role_writes_witness :
    (postAgreements dbAdmin oid24 5 bodyPlain).2.users = dbAdmin.users ∧
    (∃ r db2, rejectAgreement dbAdmin oid24 = .ok (r, db2) ∧
      db2.users = dbAdmin.users) ∧
    (∃ r db2, acceptAgreement dbAdmin oid24 (some "root@sky.example") =
        .ok (r, db2) ∧
      ∀ u2 ∈ db2.users, u2 ∈ dbAdmin.users ∨
        (u2.role = some "member" ∧
          ∃ u, u ∈ dbAdmin.users ∧ u.email = "root@sky.example" ∧
            u2 = setMember u)) :=
  C6_lifecycle_role_writes dbAdmin oid24 5 bodyPlain oid24 "root@sky.example"
    (by decide)

/-! ## C4 — the admin authorization gate -/

/-- C4: (1) a missing or malformed credential is rejected 401, for every
verification oracle alike — so before and independently of any
identity-provider call; (2) a bearer token the provider rejects is 403;
(3) a verified identity whose email has no user record, or whose stored
role is not "admin", is 403; (4) a verified identity stored as "admin"
proceeds to the operation. -/
theorem C4_admin_gate_policy :
    (∀ (verify : String → Option Identity) (db : DB) (h : Option String),
      bearerForm h = false →
      adminGate verify db h = .unauthorized "Unauthorized access") ∧
    (∀ (verify : String → Option Identity) (db : DB) (s : String),
      strStartsWith s "Bearer " = true → verify (extractToken s) = none →
      adminGate verify db (some s) = .forbidden "Forbidden") ∧
    (∀ (verify : String → Option Identity) (db : DB) (s : String)
        (ident : Identity) (e : String),
      strStartsWith s "Bearer " = true → verify (extractToken s) = some ident →
      ident.email = some e → e ≠ "" →
      (∀ u, findOne (fun u => u.email = e) db.users = some u →
        u.role ≠ some "admin") →
      adminGate verify db (some s) = .forbidden "Forbidden: Admins only") ∧
    (∀ (verify : String → Option Identity) (db : DB) (s : String)
        (ident : Identity) (e : String) (u : User),
      strStartsWith s "Bearer " = true → verify (extractToken s) = some ident →
      ident.email = some e → e ≠ "" →
      findOne (fun u => u.email = e) db.users = some u → u.role = some "admin" →
      adminGate verify db (some s) = .proceed ident) := by
  refine ⟨?_, ?_, ?_, ?_⟩
  · intro verify db h hb
    cases h with
    | none => rfl
    | some s =>
      simp only [bearerForm] at hb
      simp [adminGate, verifyFBToken, hb]
  · intro verify db s hs hv
    simp [adminGate, verifyFBToken, hs, hv]
  · intro verify db s ident e hs hv he hne hrole
    simp only [adminGate, verifyFBToken, hs, if_true, hv]
    rw [verifyAdmin, he]
    simp only [hne, if_false]
    cases hf : findOne (fun u => u.email = e) db.users with
    | none => simp [hf]
    | some u => simp [hf, hrole u hf]
  · intro verify db s ident e u hs hv he hne hf hrole
    simp only [adminGate, verifyFBToken, hs, if_true, hv]
    rw [verifyAdmin, he]
    simp [hne, hf, hrole]

/-- A concrete identity-provider oracle: two tokens verify, the rest fail. -/
def vfy0 : String → Option Identity := fun t =>
  if t = "tok-root" then some ⟨some "root@sky.example"⟩
  else if t = "tok-ghost" then some ⟨some "ghost@sky.example"⟩
  else none

/-- A store with one admin and one member. -/
def dbGate : DB :=
  ⟨[⟨"root@sky.example", some "admin"⟩, ⟨"bob@sky.example", some "member"⟩],
   [], [], []⟩

/-- C4 witness: the four clauses of the gate policy at concrete requests —
no header, an unverifiable token, a verified identity with no user
record, and a verified stored admin. -/
theorem C4_admin_gate_policy_witness :
    adminGate vfy0 dbGate none = .unauthorized "Unauthorized access" ∧
    adminGate vfy0 dbGate (some "Bearer nope") = .forbidden "Forbidden" ∧
    adminGate vfy0 dbGate (some "Bearer tok-ghost") =
      .forbidden "Forbidden: Admins only" ∧
    adminGate vfy0 dbGate (some "Bearer tok-root") =
      .proceed ⟨some "root@sky.example"⟩ := by
  refine ⟨C4_admin_gate_policy.1 vfy0 dbGate none rfl,
    C4_admin_gate_policy.2.1 vfy0 dbGate "Bearer nope" (by decide) (by decide),
    C4_admin_gate_policy.2.2.1 vfy0 dbGate "Bearer tok-ghost"
      ⟨some "ghost@sky.example"⟩ "ghost@sky.example" (by decide) (by decide)
      rfl (by decide) ?_,
    C4_admin_gate_policy.2.2.2 vfy0 dbGate "Bearer tok-root"
      ⟨some "root@sky.example"⟩ "root@sky.example"
      ⟨"root@sky.example", some "admin"⟩ (by decide) (by decide) rfl
      (by decide) (by decide) rfl⟩
  intro u hu
  have : (none : Option User) = some u := by
    rw [show findOne (fun u => u.email = "ghost@sky.example") dbGate.users = none
      from by decide] at hu
    exact hu
  exact absurd this (by simp)

/-! ## C5 — errors inside accept/reject are not caught at the boundary -/

/-- C5: the accept and reject handlers of the source have no try/catch, so
the exception `new ObjectId(id)` throws on a malformed id propagates
unhandled past the Authorization Gate even for a fully authorized admin —
the request does not get a structured response.  This exhibits the
failing input for the claim that every internal error is caught at the
operation's boundary. -/
theorem C5_unhandled_objectid_throw :
    acceptRoute vfy0 dbGate (some "Bearer tok-root") "not-an-objectid"
        (some "bob@sky.example") =
      .error "BSONError: input must be a 24 character hex string" ∧
    rejectRoute vfy0 dbGate (some "Bearer tok-root") "not-an-objectid" =
      .error "BSONError: input must be a 24 character hex string" := by
  exact ⟨rfl, rfl⟩

/-! ## C8 — GET /validate-coupon -/

/-- C8: a missing code query is the 400 validation error; an unknown code
is valid=false "not found"; a stored coupon whose expiry is strictly
before the wall clock at the call is valid=false "expired"; otherwise
valid=true with `Number(coupon.discount)`; and in every case the store is
returned unchanged. -/
theorem C8_validate_coupon_cases :
    (∀ (db : DB) (now : Int), validateCoupon db now none = (.missingCode, db)) ∧
    (∀ (db : DB) (now : Int) (c : String), c ≠ "" →
      findOne (fun k => k.code = c) db.coupons = none →
      validateCoupon db now (some c) = (.notFound, db)) ∧
    (∀ (db : DB) (now : Int) (c : String) (k : Coupon), c ≠ "" →
      findOne (fun k2 => k2.code = c) db.coupons = some k →
      k.expiryDate < now →
      validateCoupon db now (some c) = (.expired, db)) ∧
    (∀ (db : DB) (now : Int) (c : String) (k : Coupon), c ≠ "" →
      findOne (fun k2 => k2.code = c) db.coupons = some k →
      ¬ k.expiryDate < now →
      validateCoupon db now (some c) = (.valid (jsToNumber k.discount), db)) := by
  refine ⟨fun db now => rfl, ?_, ?_, ?_⟩
  · intro db now c hc hf
    simp [validateCoupon, hc, hf]
  · intro db now c k hc hf hexp
    simp [validateCoupon, hc, hf, hexp]
  · intro db now c k hc hf hexp
    simp [validateCoupon, hc, hf, hexp]

/-- A store with one live coupon and one expired coupon. -/
def dbCoupons : DB :=
  ⟨[], [], [⟨"SAVE10", .num 10, 2000⟩, ⟨"OLD5", .num 5, 100⟩], []⟩

/-- C8 witness: the four clauses at wall-clock 1500 over `dbCoupons` —
no code, an unknown code, the expired coupon, and the live coupon whose
discount comes back as the number 10. -/
theorem C8_validate_coupon_cases_witness :
    validateCoupon dbCoupons 1500 none = (.missingCode, dbCoupons) ∧
    validateCoupon dbCoupons 1500 (some "NOPE") = (.notFound, dbCoupons) ∧
    validateCoupon dbCoupons 1500 (some "OLD5") = (.expired, dbCoupons) ∧
    validateCoupon dbCoupons 1500 (some "SAVE10") =
      (.valid (some 10), dbCoupons) :=
  ⟨C8_validate_coupon_cases.1 dbCoupons 1500,
   C8_validate_coupon_cases.2.1 dbCoupons 1500 "NOPE" (by decide) (by decide),
   C8_validate_coupon_cases.2.2.1 dbCoupons 1500 "OLD5" ⟨"OLD5", .num 5, 100⟩
     (by decide) (by decide) (by decide),
   C8_validate_coupon_cases.2.2.2 dbCoupons 1500 "SAVE10"
     ⟨"SAVE10", .num 10, 2000⟩ (by decide) (by decide) (by decide)⟩

/-! ## C9 — GET /apartments pagination -/

/-- C9: `totalPages` is always the ceiling of the number of documents
matching the rent filter divided by the page size 6 — computed from the
filtered set; `currentPage` echoes the requested page; a request for page
2 when 13 documents match returns exactly 6 items, totalPages 3 and
currentPage 2; an absent page defaults to 1, and absent rent bounds
default to the filter `0 ≤ rent` with no upper bound. -/
theorem C9_apartments_pagination :
    (∀ (db : DB) (pq mq xq : Option Nat),
      (getApartments db pq mq xq).totalPages =
        ((db.apartments.filter
            (rentMatches (jsOr mq 0) (effectiveMax xq))).length + pageSize - 1)
          / pageSize) ∧
    (∀ (db : DB) (pq mq xq : Option Nat),
      (getApartments db pq mq xq).currentPage = jsOr pq 1) ∧
    (∀ (db : DB) (mq xq : Option Nat),
      (db.apartments.filter
          (rentMatches (jsOr mq 0) (effectiveMax xq))).length = 13 →
      (getApartments db (some 2) mq xq).apartments.length = 6 ∧
      (getApartments db (some 2) mq xq).totalPages = 3 ∧
      (getApartments db (some 2) mq xq).currentPage = 2) ∧
    (∀ (db : DB) (pq : Option Nat),
      getApartments db pq none none =
        { totalPages :=
            ((db.apartments.filter (rentMatches 0 none)).length + pageSize - 1)
              / pageSize
          currentPage := jsOr pq 1
          apartments := ((db.apartments.filter (rentMatches 0 none)).drop
            ((jsOr pq 1 - 1) * pageSize)).take pageSize }) := by
  refine ⟨fun db pq mq xq => rfl, fun db pq mq xq => rfl, ?_, fun db pq => rfl⟩
  intro db mq xq h
  refine ⟨?_, ?_, rfl⟩
  · show (((db.apartments.filter
        (rentMatches (jsOr mq 0) (effectiveMax xq))).drop
          ((jsOr (some 2) 1 - 1) * pageSize)).take pageSize).length = 6
    rw [List.length_take, List.length_drop, h]
    rfl
  · show ((db.apartments.filter
        (rentMatches (jsOr mq 0) (effectiveMax xq))).length + pageSize - 1)
          / pageSize = 3
    rw [h]
    rfl

/-- Fifteen catalog entries, thirteen of which have rent in [10, 100]. -/
def dbApts : DB :=
  ⟨[], [], [],
   [⟨"A1", 5⟩, ⟨"A2", 10⟩, ⟨"A3", 15⟩, ⟨"A4", 20⟩, ⟨"A5", 25⟩, ⟨"A6", 30⟩,
    ⟨"A7", 35⟩, ⟨"A8", 40⟩, ⟨"A9", 45⟩, ⟨"B1", 50⟩, ⟨"B2", 60⟩, ⟨"B3", 70⟩,
    ⟨"B4", 80⟩, ⟨"B5", 100⟩, ⟨"B6", 200⟩]⟩

/-- C9 witness: page 2 of the rent window [10, 100] over `dbApts`, where
exactly 13 documents match: 6 items, 3 pages, current page 2. -/
theorem C9_apartments_pagination_witness :
    (getApartments dbApts (some 2) (some 10) (some 100)).apartments.length = 6 ∧
    (getApartments dbApts (some 2) (some 10) (some 100)).totalPages = 3 ∧
    (getApartments dbApts (some 2) (some 10) (some 100)).currentPage = 2 :=
  C9_apartments_pagination.2.2.1 dbApts (some 10) (some 100) (by decide)

/-! ## C10 — GET /agreements with no email filter returns everything -/

/-- C10: any caller whose bearer token the provider verifies — whatever
the decoded identity, which the handler never reads — receives the entire
agreements collection when the email query is absent. -/
theorem C10_agreements_returns_all (verify : String → Option Identity)
    (db : DB) (s : String) (ident : Identity)
    (hs : strStartsWith s "Bearer " = true)
    (hv : verify (extractToken s) = some ident) :
    agreementsRoute verify db (some s) none = .handled db.agreements := by
  simp [agreementsRoute, verifyFBToken, hs, hv, getAgreements]

/-- C10 witness: a verified non-admin caller with no email query gets the
full collection. -/
theorem C10_agreements_returns_all_witness :
    agreementsRoute vfy0 dbPending (some "Bearer tok-ghost") none =
      .handled dbPending.agreements :=
  C10_agreements_returns_all vfy0 dbPending "Bearer tok-ghost"
    ⟨some "ghost@sky.example"⟩ (by decide) (by decide)

end SkyTower
